import Mathlib

/-!
Shallow embedding of `src/main.py` (Lunara AI backend): a FastAPI service
with one POST endpoint that validates a contact-form payload, inserts it
into a SQLite table, attempts a best-effort Gmail notification, and returns
a JSON acknowledgment; plus a GET liveness endpoint.

Requests are modelled as pure state transformers over an explicit `Store`,
with an ordered trace of side effects (`Effect`) recording what the handler
did and in which order.
-/

/-- A contact-form payload after successful validation
(pydantic `ContactRequest`, src/main.py lines 53-56). -/
structure ContactRequest where
  name : String
  email : String
  message : String
deriving Repr, DecidableEq

/-- The raw JSON body of a `POST /api/contact` request as it arrives at
FastAPI: each of the three declared fields may be absent. -/
structure RawBody where
  name : Option String
  email : Option String
  message : Option String
deriving Repr, DecidableEq

/-- Splits a list of characters at every occurrence of `c`
(the pieces between separators, in order; used to model email parsing). -/
def splitAtChar (c : Char) : List Char → List (List Char)
  | [] => [[]]
  | x :: xs =>
    let r := splitAtChar c xs
    if x = c then [] :: r
    else
      match r with
      | [] => [[x]]
      | y :: ys => (x :: y) :: ys

/-- Modelled from the spec: pydantic's `EmailStr` validator (library code,
not in src) accepts a string that "must conform to email address syntax".
Approximated here as `local@domain` with a single `@`, a nonempty local
part, and a domain of at least two nonempty dot-separated labels. -/
def isValidEmail (s : String) : Bool :=
  match splitAtChar '@' s.data with
  | [loc, dom] =>
    !loc.isEmpty && !dom.isEmpty &&
      (splitAtChar '.' dom).length ≥ 2 &&
      (splitAtChar '.' dom).all (fun p => !p.isEmpty)
  | _ => false

/-- FastAPI/pydantic validation of the request body against
`ContactRequest`: every field must be present and `email` must pass the
`EmailStr` check; `name` and `message` are only checked to be present
strings. Returns `none` exactly when FastAPI would reply 422 before the
handler runs. -/
def parseContactRequest (body : RawBody) : Option ContactRequest :=
  match body.name, body.email, body.message with
  | some n, some e, some m =>
    if isValidEmail e then some ⟨n, e, m⟩ else none
  | _, _, _ => none

/-- One row of the `contact_messages` table
(`ContactMessage`, src/main.py lines 26-33). Timestamps are modelled
as natural numbers. -/
structure ContactRecord where
  id : Nat
  name : String
  email : String
  message : String
  created_at : Nat
deriving Repr, DecidableEq

/-- The persistence store: the rows of `contact_messages` in insertion
order and the next auto-increment id SQLite will assign. -/
structure Store where
  records : List ContactRecord
  nextId : Nat
deriving Repr, DecidableEq

/-- The store right after `create_db_and_tables`: no rows, first id is 1. -/
def Store.empty : Store := ⟨[], 1⟩

/-- A committed insert (`db.add` / `db.commit` / `db.refresh`,
src/main.py lines 140-142): appends a row with the auto-increment id and
`created_at` set to the server's current time, and bumps the next id. -/
def Store.insert (s : Store) (now : Nat) (req : ContactRequest) :
    Store × ContactRecord :=
  let r : ContactRecord :=
    ⟨s.nextId, req.name, req.email, req.message, now⟩
  (⟨s.records ++ [r], s.nextId + 1⟩, r)

/-- Modelled from the spec: the SQLAlchemy/SQLite transaction semantics of
`db.commit` (library code, not in src) — "the caller observes either a
fully committed record (with id populated) or an error; there is no
partial-write state". `dbOk` says whether the underlying store is able to
commit; on failure no store is produced (the transaction rolls back). -/
def Store.tryInsert (s : Store) (dbOk : Bool) (now : Nat)
    (req : ContactRequest) : Option (Store × ContactRecord) :=
  if dbOk then some (s.insert now req) else none

/-- The notifier's environment variables (`GMAIL_USER`,
`GMAIL_APP_PASSWORD`, `TO_EMAIL`), each possibly unset. -/
structure Env where
  gmail_user : Option String
  gmail_app_password : Option String
  to_email : Option String
deriving Repr, DecidableEq

/-- Python truthiness of an `os.environ.get` result: `None` and the empty
string are falsy. -/
def truthy : Option String → Bool
  | none => false
  | some s => !s.isEmpty

/-- `os.environ.get ("TO_EMAIL", gmail_user)` (src/main.py line 71): the
recipient, defaulting to the sender only when `TO_EMAIL` is unset. -/
def resolvedRecipient (env : Env) : Option String :=
  match env.to_email with
  | some t => some t
  | none => env.gmail_user

/-- Outcome of one call to `send_contact_email`. -/
inductive SendResult
  | skipped
  | sent
  | raised
deriving Repr, DecidableEq

/-- A network action taken by the notifier against the SMTP server. -/
inductive NetEvent
  | smtpConnect
  | smtpLogin
  | smtpSend
deriving Repr, DecidableEq

/-- The plaintext body composed by the notifier (src/main.py lines 82-87). -/
def emailBody (data : ContactRequest) : String :=
  "New contact message from Lunara AI\n\n" ++
    "Name: " ++ data.name ++ "\n" ++
    "Email: " ++ data.email ++ "\n\n" ++
    "Message:\n" ++ data.message ++ "\n"

/-- `send_contact_email` (src/main.py lines 63-95): reads the environment,
returns silently when sender, credential, or resolved recipient is falsy
(soft-disable), otherwise opens an SMTP_SSL session, logs in and sends.
`smtpFails` says whether the transport raises during the session; the
second component is the ordered list of network actions performed. -/
def send_contact_email (env : Env) (smtpFails : Bool)
    (_data : ContactRequest) : SendResult × List NetEvent :=
  let gmail_user := env.gmail_user
  let gmail_app_password := env.gmail_app_password
  let to_email := resolvedRecipient env
  if !truthy gmail_user || !truthy gmail_app_password || !truthy to_email then
    (SendResult.skipped, [])
  else if smtpFails then
    (SendResult.raised, [NetEvent.smtpConnect])
  else
    (SendResult.sent,
      [NetEvent.smtpConnect, NetEvent.smtpLogin, NetEvent.smtpSend])

/-- Responses of `POST /api/contact`: a FastAPI 422 validation error,
a 500 on persistence failure, or the handler's 200 JSON body
`{success, id, message}`. -/
inductive Response
  | validationError
  | serverError
  | okJson (success : Bool) (id : Nat) (message : String)
deriving Repr, DecidableEq

/-- HTTP status code of a response. -/
def Response.statusCode : Response → Nat
  | .validationError => 422
  | .serverError => 500
  | .okJson _ _ _ => 200

/-- The handler's fixed success message (src/main.py line 153). -/
def okMessage : String :=
  "Contact message saved and email sent (if email is configured)."

/-- A side effect of one request, in the order it occurred. -/
inductive Effect
  | dbInsert (id : Nat)
  | net (e : NetEvent)
deriving Repr, DecidableEq

/-- `POST /api/contact` end to end (src/main.py lines 124-154):
FastAPI/pydantic validation of the body, then `submit_contact` — insert
into the store, then a best-effort `send_contact_email` whose exception is
caught (`try/except` lines 145-148), then the JSON acknowledgment.
Returns the response, the resulting store, and the ordered effect trace. -/
def postContact (store : Store) (env : Env) (dbOk : Bool) (smtpFails : Bool)
    (now : Nat) (body : RawBody) : Response × Store × List Effect :=
  match parseContactRequest body with
  | none => (Response.validationError, store, [])
  | some payload =>
    match Store.tryInsert store dbOk now payload with
    | none => (Response.serverError, store, [])
    | some (store2, contact) =>
      let send := send_contact_email env smtpFails payload
      (Response.okJson true contact.id okMessage,
        store2,
        Effect.dbInsert contact.id :: send.2.map Effect.net)

/-- The liveness endpoint's JSON body (src/main.py line 160). -/
structure RootResponse where
  status : String
  message : String
deriving Repr, DecidableEq

/-- `GET /` (`read_root`, src/main.py lines 158-160): returns the fixed
status payload with HTTP 200; takes the ambient store and notifier
configuration only to show it touches neither. -/
def read_root (_env : Env) (store : Store) :
    Nat × RootResponse × Store × List Effect :=
  (200, ⟨"ok", "Lunara AI backend is running"⟩, store, [])

/-- A sample syntactically valid body, for concrete witnesses. -/
def sampleBody : RawBody :=
  ⟨some "Ada", some "ada@example.com", some "hello"⟩

/-- A second sample syntactically valid body, for concrete witnesses. -/
def sampleBody2 : RawBody :=
  ⟨some "Bob", some "bob@example.org", some "hi there"⟩

/-- A fully configured notifier environment, for concrete witnesses. -/
def sampleEnv : Env :=
  ⟨some "owner@gmail.com", some "pw", some "owner@gmail.com"⟩

/-- A sequence of `POST /api/contact` requests processed one after the
other against a healthy store (`dbOk = true`), threading the store;
returns the final store and the responses in order. -/
def runValid (store : Store) (env : Env) (smtpFails : Bool) (now : Nat) :
    List RawBody → Store × List Response
  | [] => (store, [])
  | b :: bs =>
    let r := postContact store env true smtpFails now b
    let rest := runValid r.2.1 env smtpFails now bs
    (rest.1, r.1 :: rest.2)

/-- The record ids returned in the success responses, in response order. -/
def respIds : List Response → List Nat
  | [] => []
  | Response.okJson _ i _ :: rest => i :: respIds rest
  | Response.validationError :: rest => respIds rest
  | Response.serverError :: rest => respIds rest

/-! ## Theorems for the claims -/

/-- C1: a `POST /api/contact` body with a missing field or an email that
fails the email-syntax check gets a 4xx validation error, the store is
unchanged (nothing persisted), and the side-effect trace is empty (no mail
attempt): validation happens before any side effect. -/
theorem C1_validation_before_side_effects
    (store : Store) (env : Env) (dbOk smtpFails : Bool) (now : Nat)
    (body : RawBody)
    (h : body.name = none ∨ body.email = none ∨ body.message = none ∨
      ∃ e, body.email = some e ∧ isValidEmail e = false) :
    (postContact store env dbOk smtpFails now body).1 =
        Response.validationError ∧
    (postContact store env dbOk smtpFails now body).1.statusCode / 100 = 4 ∧
    (postContact store env dbOk smtpFails now body).2.1 = store ∧
    (postContact store env dbOk smtpFails now body).2.2 = [] := by
  have hp : parseContactRequest body = none := by
    obtain ⟨n, e, m⟩ := body
    cases n <;> cases e <;> cases m <;> simp_all [parseContactRequest]
  simp [postContact, hp, Response.statusCode]

/-- C1 witness: the spec's own example `{name: A, email: not-an-email,
message: hi}` is rejected with no persistence and no mail attempt. -/
theorem C1_witness :
    (postContact Store.empty sampleEnv true false 0
        ⟨some "A", some "not-an-email", some "hi"⟩).1 =
      Response.validationError ∧
    (postContact Store.empty sampleEnv true false 0
        ⟨some "A", some "not-an-email", some "hi"⟩).1.statusCode / 100 = 4 ∧
    (postContact Store.empty sampleEnv true false 0
        ⟨some "A", some "not-an-email", some "hi"⟩).2.1 = Store.empty ∧
    (postContact Store.empty sampleEnv true false 0
        ⟨some "A", some "not-an-email", some "hi"⟩).2.2 = [] :=
  C1_validation_before_side_effects Store.empty sampleEnv true false 0
    ⟨some "A", some "not-an-email", some "hi"⟩
    (Or.inr (Or.inr (Or.inr ⟨"not-an-email", rfl, by decide⟩)))

/-- C2: for a valid submission with the store healthy, an exception raised
by the mail notifier (smtpFails) is caught: the request still returns the
200 success body, the record is persisted, and the response is identical
to the one produced when the transport succeeds. -/
theorem C2_mail_failure_swallowed
    (store : Store) (env : Env) (now : Nat) (body : RawBody)
    (payload : ContactRequest)
    (h : parseContactRequest body = some payload) :
    (postContact store env true true now body).1 =
        Response.okJson true store.nextId okMessage ∧
    (postContact store env true true now body).1.statusCode = 200 ∧
    (postContact store env true true now body).2.1.records =
      store.records ++
        [⟨store.nextId, payload.name, payload.email, payload.message, now⟩] ∧
    (postContact store env true true now body).1 =
      (postContact store env true false now body).1 := by
  simp [postContact, h, Store.tryInsert, Store.insert, Response.statusCode]

/-- C2 witness: a mail-transport failure at a concrete valid submission
still yields the persisted-success response. -/
theorem C2_witness :
    (postContact Store.empty sampleEnv true true 7 sampleBody).1 =
        Response.okJson true Store.empty.nextId okMessage ∧
    (postContact Store.empty sampleEnv true true 7 sampleBody).1.statusCode
        = 200 ∧
    (postContact Store.empty sampleEnv true true 7 sampleBody).2.1.records =
      Store.empty.records ++
        [⟨Store.empty.nextId, "Ada", "ada@example.com", "hello", 7⟩] ∧
    (postContact Store.empty sampleEnv true true 7 sampleBody).1 =
      (postContact Store.empty sampleEnv true false 7 sampleBody).1 :=
  C2_mail_failure_swallowed Store.empty sampleEnv 7 sampleBody
    ⟨"Ada", "ada@example.com", "hello"⟩ (by decide)

/-- C3: for a valid submission the effect trace starts with the committed
insert and every network action of the notifier comes strictly after it;
when the insert fails, the request fails with a server error, the store is
unchanged, and the trace is empty — no email is ever attempted. -/
theorem C3_insert_before_mail
    (store : Store) (env : Env) (smtpFails : Bool) (now : Nat)
    (body : RawBody) (payload : ContactRequest)
    (h : parseContactRequest body = some payload) :
    (postContact store env true smtpFails now body).2.2 =
      Effect.dbInsert store.nextId ::
        (send_contact_email env smtpFails payload).2.map Effect.net ∧
    (postContact store env false smtpFails now body).1 =
        Response.serverError ∧
    (postContact store env false smtpFails now body).2.1 = store ∧
    (postContact store env false smtpFails now body).2.2 = [] := by
  simp [postContact, h, Store.tryInsert, Store.insert]

/-- C3 witness: at a concrete valid submission the trace is the insert
followed by the SMTP session, and a failing insert yields a server error
with no effects at all. -/
theorem C3_witness :
    (postContact Store.empty sampleEnv true false 3 sampleBody).2.2 =
      Effect.dbInsert Store.empty.nextId ::
        (send_contact_email sampleEnv false
            ⟨"Ada", "ada@example.com", "hello"⟩).2.map Effect.net ∧
    (postContact Store.empty sampleEnv false false 3 sampleBody).1 =
        Response.serverError ∧
    (postContact Store.empty sampleEnv false false 3 sampleBody).2.1 =
        Store.empty ∧
    (postContact Store.empty sampleEnv false false 3 sampleBody).2.2 = [] :=
  C3_insert_before_mail Store.empty sampleEnv false 3 sampleBody
    ⟨"Ada", "ada@example.com", "hello"⟩ (by decide)

/-- C4: the insert is atomic — every call either commits fully, producing
the appended record with its id populated from the auto-increment counter,
or fails producing no store at all (so the caller keeps the unchanged
store; no partial record exists). -/
theorem C4_insert_atomic
    (s : Store) (dbOk : Bool) (now : Nat) (req : ContactRequest) :
    (Store.tryInsert s dbOk now req =
        some (⟨s.records ++
            [⟨s.nextId, req.name, req.email, req.message, now⟩],
          s.nextId + 1⟩,
          ⟨s.nextId, req.name, req.email, req.message, now⟩)) ∨
    Store.tryInsert s dbOk now req = none := by
  cases dbOk <;> simp [Store.tryInsert, Store.insert]

/-- Characterization of a run of all-valid submissions: the ids returned
in the responses are exactly the consecutive block starting at the store's
next auto-increment id, the final next id advanced by the number of
submissions, and every response is a success. -/
lemma runValid_all_valid (env : Env) (smtpFails : Bool) (now : Nat)
    (bodies : List RawBody) :
    ∀ store : Store,
      (∀ b ∈ bodies, (parseContactRequest b).isSome) →
      respIds (runValid store env smtpFails now bodies).2 =
          List.range' store.nextId bodies.length ∧
      (runValid store env smtpFails now bodies).1.nextId =
          store.nextId + bodies.length ∧
      ∀ resp ∈ (runValid store env smtpFails now bodies).2,
        ∃ i, resp = Response.okJson true i okMessage := by
  induction bodies with
  | nil => intro store _; simp [runValid, respIds]
  | cons b bs ih =>
    intro store hv
    obtain ⟨payload, hp⟩ :=
      Option.isSome_iff_exists.mp (hv b (List.mem_cons_self b bs))
    have hv2 : ∀ x ∈ bs, (parseContactRequest x).isSome :=
      fun x hx => hv x (List.mem_cons_of_mem b hx)
    have hstep : postContact store env true smtpFails now b =
        (Response.okJson true store.nextId okMessage,
          ⟨store.records ++ [⟨store.nextId, payload.name, payload.email,
              payload.message, now⟩], store.nextId + 1⟩,
          Effect.dbInsert store.nextId ::
            (send_contact_email env smtpFails payload).2.map Effect.net) := by
      simp [postContact, hp, Store.tryInsert, Store.insert]
    obtain ⟨ih1, ih2, ih3⟩ :=
      ih ⟨store.records ++ [⟨store.nextId, payload.name, payload.email,
          payload.message, now⟩], store.nextId + 1⟩ hv2
    refine ⟨?_, ?_, ?_⟩
    · simp only [runValid, hstep, respIds]
      simp only [runValid, hstep, respIds] at ih1
      rw [ih1, List.length_cons, List.range'_succ]
    · simp only [runValid, hstep]
      simp only [runValid, hstep] at ih2
      rw [ih2, List.length_cons]
      omega
    · simp only [runValid, hstep]
      simp only [runValid, hstep] at ih3
      intro resp hresp
      rcases List.mem_cons.mp hresp with h | h
      · exact ⟨store.nextId, h⟩
      · exact ih3 resp h

/-- C5: for every sequence of valid submissions against a store whose
existing ids are below the auto-increment counter, every request returns
success, the ids handed out are pairwise strictly increasing in request
order (hence never reused), and each is strictly greater than every id
already present in the store. -/
theorem C5_ids_strictly_increasing
    (store : Store) (env : Env) (smtpFails : Bool) (now : Nat)
    (bodies : List RawBody)
    (hv : ∀ b ∈ bodies, (parseContactRequest b).isSome)
    (hinv : ∀ r ∈ store.records, r.id < store.nextId) :
    (∀ resp ∈ (runValid store env smtpFails now bodies).2,
        ∃ i, resp = Response.okJson true i okMessage) ∧
    List.Pairwise (· < ·)
        (respIds (runValid store env smtpFails now bodies).2) ∧
    ∀ r ∈ store.records,
      ∀ i ∈ respIds (runValid store env smtpFails now bodies).2,
        r.id < i := by
  obtain ⟨h1, _h2, h3⟩ := runValid_all_valid env smtpFails now bodies store hv
  refine ⟨h3, ?_, ?_⟩
  · rw [h1]
    exact List.pairwise_lt_range' store.nextId bodies.length
  · intro r hr i hi
    rw [h1] at hi
    exact lt_of_lt_of_le (hinv r hr) (List.mem_range'_1.mp hi).1

/-- C5 witness: two concrete valid submissions against the empty store
yield two success responses with strictly increasing, unused ids. -/
theorem C5_witness :
    (∀ resp ∈ (runValid Store.empty sampleEnv false 0
        [sampleBody, sampleBody2]).2,
      ∃ i, resp = Response.okJson true i okMessage) ∧
    List.Pairwise (· < ·)
        (respIds (runValid Store.empty sampleEnv false 0
          [sampleBody, sampleBody2]).2) ∧
    ∀ r ∈ Store.empty.records,
      ∀ i ∈ respIds (runValid Store.empty sampleEnv false 0
          [sampleBody, sampleBody2]).2,
        r.id < i :=
  C5_ids_strictly_increasing Store.empty sampleEnv false 0
    [sampleBody, sampleBody2] (by decide) (by decide)

/-- C6: if the sender, the credential, or the resolved recipient
(`TO_EMAIL` defaulting to the sender when unset) is missing from the
environment, `send_contact_email` performs no network action and returns
silently (skipped, never raised), for every submission and even when the
transport would fail. -/
theorem C6_soft_disable
    (env : Env) (smtpFails : Bool) (data : ContactRequest)
    (h : env.gmail_user = none ∨ env.gmail_app_password = none ∨
      resolvedRecipient env = none) :
    send_contact_email env smtpFails data = (SendResult.skipped, []) := by
  rcases h with h | h | h <;> simp [send_contact_email, truthy, h]

/-- C6 witness: with every notifier variable unset, a concrete send is
skipped with no network action, even with a failing transport. -/
theorem C6_witness :
    send_contact_email ⟨none, none, none⟩ true
        ⟨"Ada", "ada@example.com", "hello"⟩ =
      (SendResult.skipped, []) :=
  C6_soft_disable ⟨none, none, none⟩ true
    ⟨"Ada", "ada@example.com", "hello"⟩ (Or.inl rfl)

/-- C7: every valid submission that persists successfully gets a 200 JSON
body with the success flag true, the id of the record just committed, and
the fixed human-readable message; the response is identical for every
notifier environment and every transport outcome, so the success flag
depends only on persistence. -/
theorem C7_success_response_shape
    (store : Store) (env env2 : Env) (smtpFails smtpFails2 : Bool)
    (now : Nat) (body : RawBody) (payload : ContactRequest)
    (h : parseContactRequest body = some payload) :
    (postContact store env true smtpFails now body).1 =
        Response.okJson true store.nextId okMessage ∧
    (postContact store env true smtpFails now body).1.statusCode = 200 ∧
    (postContact store env true smtpFails now body).2.1.records =
      store.records ++
        [⟨store.nextId, payload.name, payload.email, payload.message,
          now⟩] ∧
    (postContact store env true smtpFails now body).1 =
      (postContact store env2 true smtpFails2 now body).1 := by
  simp [postContact, h, Store.tryInsert, Store.insert, Response.statusCode]

/-- C7 witness: a concrete valid submission returns the 200 success body
with the committed record's id, unchanged under a different environment
and transport outcome. -/
theorem C7_witness :
    (postContact Store.empty sampleEnv true false 4 sampleBody).1 =
        Response.okJson true Store.empty.nextId okMessage ∧
    (postContact Store.empty sampleEnv true false 4 sampleBody).1.statusCode
        = 200 ∧
    (postContact Store.empty sampleEnv true false 4 sampleBody).2.1.records =
      Store.empty.records ++
        [⟨Store.empty.nextId, "Ada", "ada@example.com", "hello", 4⟩] ∧
    (postContact Store.empty sampleEnv true false 4 sampleBody).1 =
      (postContact Store.empty ⟨none, none, none⟩ true true 4 sampleBody).1 :=
  C7_success_response_shape Store.empty sampleEnv ⟨none, none, none⟩
    false true 4 sampleBody ⟨"Ada", "ada@example.com", "hello"⟩ (by decide)

/-- C8: `created_at` is assigned at insertion time from the server's
current time, and no operation ever updates it afterwards: an insert sets
the new record's `created_at` to `now`, every `POST /api/contact` either
leaves the rows exactly as they were or appends one new row (timestamped
`now`) leaving the old rows untouched, and `GET /` leaves the store
unchanged. -/
theorem C8_created_at_set_once
    (store : Store) (env : Env) (dbOk smtpFails : Bool) (now : Nat)
    (body : RawBody) (req : ContactRequest) :
    (store.insert now req).2.created_at = now ∧
    ((postContact store env dbOk smtpFails now body).2.1.records =
        store.records ∨
      ∃ r, (postContact store env dbOk smtpFails now body).2.1.records =
          store.records ++ [r] ∧ r.created_at = now) ∧
    (read_root env store).2.2.1 = store := by
  refine ⟨by simp [Store.insert], ?_, rfl⟩
  cases hp : parseContactRequest body with
  | none => exact Or.inl (by simp [postContact, hp])
  | some payload =>
    cases dbOk with
    | false => exact Or.inl (by simp [postContact, hp, Store.tryInsert])
    | true =>
      refine Or.inr ⟨⟨store.nextId, payload.name, payload.email,
        payload.message, now⟩, ?_, rfl⟩
      simp [postContact, hp, Store.tryInsert, Store.insert]

/-- C9: `GET /` always returns HTTP 200 with body status "ok", leaves the
store untouched and performs no side effects, for every store state and
every notifier configuration. -/
theorem C9_root_liveness (env : Env) (store : Store) :
    read_root env store =
      (200, ⟨"ok", "Lunara AI backend is running"⟩, store, []) := rfl

/-- C10: presence and string type are all that is checked for `name` and
`message`: any strings — including empty ones — pass validation whenever
the email is syntactically valid, and a submission with empty name and
empty message is persisted and answered with the 200 success body. -/
theorem C10_empty_fields_accepted
    (store : Store) (env : Env) (smtpFails : Bool) (now : Nat)
    (n m e : String) (he : isValidEmail e = true) :
    parseContactRequest ⟨some n, some e, some m⟩ = some ⟨n, e, m⟩ ∧
    (postContact store env true smtpFails now
        ⟨some "", some e, some ""⟩).1 =
      Response.okJson true store.nextId okMessage ∧
    (postContact store env true smtpFails now
        ⟨some "", some e, some ""⟩).2.1.records =
      store.records ++ [⟨store.nextId, "", e, "", now⟩] := by
  have h2 : parseContactRequest ⟨some "", some e, some ""⟩ =
      some ⟨"", e, ""⟩ := by
    simp [parseContactRequest, he]
  refine ⟨by simp [parseContactRequest, he], ?_, ?_⟩ <;>
    simp [postContact, h2, Store.tryInsert, Store.insert]

/-- C10 witness: the empty name and empty message with a concrete valid
email are accepted, persisted, and acknowledged with success. -/
theorem C10_witness :
    parseContactRequest ⟨some "x", some "ada@example.com", some "y"⟩ =
      some ⟨"x", "ada@example.com", "y"⟩ ∧
    (postContact Store.empty sampleEnv true false 9
        ⟨some "", some "ada@example.com", some ""⟩).1 =
      Response.okJson true Store.empty.nextId okMessage ∧
    (postContact Store.empty sampleEnv true false 9
        ⟨some "", some "ada@example.com", some ""⟩).2.1.records =
      Store.empty.records ++
        [⟨Store.empty.nextId, "", "ada@example.com", "", 9⟩] :=
  C10_empty_fields_accepted Store.empty sampleEnv false 9
    "x" "y" "ada@example.com" (by decide)
